import Mathlib

/-!
Verification of the WATCHDOG risk-analysis pipeline and enforcement/proxy
layer.  The repository snapshot contains the documentation of the backend
risk engine (`backend/risk_engine/ARCHITECTURE.md`, `backend/app/README.md`,
`backend/app/SETUP_REAL_LLM.md`) and the React frontend sources; the Python
modules `analyzer.py`, `scorer.py`, `signals.py`, `llm_proxy.py` and
`enforcement.py` themselves are not in the snapshot, so those components are
modelled from the specification and the pseudocode in the in-repo
documentation.  The frontend authentication logic (`AuthContext.login`) is
embedded directly from the JavaScript source.
-/

namespace Watchdog

/-! ## Data model -/

/-- RAG verification status of a single extracted claim
(§3 of the spec, `ARCHITECTURE.md` RAG Verification). -/
inductive RagStatus where
  | SUPPORTED
  | CONTRADICTED
  | UNVERIFIED
deriving DecidableEq, BEq, Repr

/-- An atomic factual claim extracted from the model response, annotated
with its RAG status. -/
structure Claim where
  text : String
  rag_status : RagStatus
deriving DecidableEq, Repr

/-- The four boolean risk signals produced once per analysis (§3). -/
structure SignalSet where
  internal_contradiction : Bool
  rag_contradiction : Bool
  rag_unverified : Bool
  overconfidence : Bool
deriving DecidableEq, Repr

/-- Discrete risk level (`scorer.py` doc: 0-34 LOW, 35-69 MEDIUM, 70-100 HIGH). -/
inductive RiskLevel where
  | LOW
  | MEDIUM
  | HIGH
deriving DecidableEq, Repr

/-- One retrieved-context document; the engine only reads `content`
(the optional metadata mapping is never consulted). -/
structure RagDoc where
  content : String
deriving DecidableEq, Repr

/-- Terminal output of the analyzer (§3 RiskAssessment / §6 interface). -/
structure AnalysisResult where
  risk_score : Nat
  risk_level : RiskLevel
  explanation : String
  signals : SignalSet
  claims : List Claim
deriving DecidableEq, Repr

/-! ## Character-level text helpers

The detectors of `signals.py` are plain keyword scanners; they are modelled
here over `List Char` so that every definition is executable by the kernel. -/

/-- Lower-case a single ASCII character. -/
def lowerChar (c : Char) : Char :=
  if 65 ≤ c.toNat ∧ c.toNat ≤ 90 then Char.ofNat (c.toNat + 32) else c

/-- Lower-case a character list. -/
def lowerL (l : List Char) : List Char := l.map lowerChar

/-- ASCII decimal digit test. -/
def isDigitChar (c : Char) : Bool := 48 ≤ c.toNat && c.toNat ≤ 57

/-- ASCII letter-or-digit test (word characters). -/
def isAlnumChar (c : Char) : Bool :=
  (97 ≤ c.toNat && c.toNat ≤ 122) || (65 ≤ c.toNat && c.toNat ≤ 90) || isDigitChar c

/-- Whitespace test. -/
def isWsChar (c : Char) : Bool :=
  c == ' ' || c == '\t' || c == '\n' || c == '\r'

/-- Does `l` start with `needle`? -/
def listStartsWith : List Char → List Char → Bool
  | [], _ => true
  | _ :: _, [] => false
  | a :: as, b :: bs => a == b && listStartsWith as bs

/-- Does `haystack` contain `needle` as a contiguous substring? -/
def listContainsSub (needle : List Char) : List Char → Bool
  | [] => listStartsWith needle []
  | c :: cs => listStartsWith needle (c :: cs) || listContainsSub needle cs

/-- Case-insensitive test that `text` contains the keyword `w`. -/
def containsWord (text : String) (w : String) : Bool :=
  listContainsSub (lowerL w.data) (lowerL text.data)

/-- Split a character list at every character satisfying `p`
(separators are dropped, empty segments kept, like Python `re.split`). -/
def splitChars (p : Char → Bool) : List Char → List (List Char)
  | [] => [[]]
  | c :: cs =>
    match splitChars p cs with
    | [] => [[]]
    | cur :: rest => if p c then [] :: cur :: rest else (c :: cur) :: rest

/-- Strip leading and trailing whitespace. -/
def trimChars (l : List Char) : List Char :=
  ((l.dropWhile isWsChar).reverse.dropWhile isWsChar).reverse

/-- Maximal runs of consecutive decimal digits occurring in `l`. -/
def digitRunsAux (cur : List Char) : List Char → List (List Char)
  | [] => if cur.isEmpty then [] else [cur.reverse]
  | c :: cs =>
    if isDigitChar c then digitRunsAux (c :: cur) cs
    else if cur.isEmpty then digitRunsAux [] cs
    else cur.reverse :: digitRunsAux [] cs

/-- All maximal digit runs of a character list. -/
def digitRuns (l : List Char) : List (List Char) := digitRunsAux [] l

/-- Decimal value of a digit run. -/
def charsToNat (l : List Char) : Nat :=
  l.foldl (fun n c => n * 10 + (c.toNat - 48)) 0

/-- All numbers written in the text (as maximal digit runs). -/
def numbersIn (l : List Char) : List Nat := (digitRuns l).map charsToNat

/-- All four-digit years mentioned in the text. -/
def yearsIn (l : List Char) : List Nat :=
  ((digitRuns l).filter (fun r => r.length == 4)).map charsToNat

/-- Is some decimal digit immediately followed by `mark` (used for the
percentage pattern `95%`)? -/
def hasDigitThen (mark : Char) : List Char → Bool
  | a :: b :: rest => (isDigitChar a && b == mark) || hasDigitThen mark (b :: rest)
  | _ => false

/-- Is a currency sign immediately followed by a digit (`$1000`)? -/
def hasCurrency : List Char → Bool
  | a :: b :: rest => (a == '$' && isDigitChar b) || hasCurrency (b :: rest)
  | _ => false

/-- Words of a character list: maximal runs of word characters. -/
def wordRunsAux (cur : List Char) : List Char → List (List Char)
  | [] => if cur.isEmpty then [] else [cur.reverse]
  | c :: cs =>
    if isAlnumChar c then wordRunsAux (c :: cur) cs
    else if cur.isEmpty then wordRunsAux [] cs
    else cur.reverse :: wordRunsAux [] cs

/-- All words of a character list. -/
def wordsOf (l : List Char) : List (List Char) := wordRunsAux [] l

/-! ## Claim extraction (`signals.py`, spec §4.1)

Modelled from the spec: `signals.py` is not in the repository snapshot.
Splits on sentence-terminal punctuation, trims whitespace, and discards
fragments under 10 characters or ending in a question mark. -/

/-- Sentence-terminal punctuation. -/
def isTerminator (c : Char) : Bool := c == '.' || c == '!' || c == '?'

/-- Does the fragment end in a question mark? -/
def endsInQuestion (l : List Char) : Bool :=
  match l.getLast? with
  | some c => c == '?'
  | none => false

/-- Modelled from the spec: `extract_claims` of the missing `signals.py`
(§4.1; `ARCHITECTURE.md` Claim Extraction): split the response on `.`, `!`,
`?`, trim whitespace, drop fragments under 10 characters or ending in `?`. -/
def extract_claims (response : String) : List String :=
  (((splitChars isTerminator response.data).map trimChars).filter
    (fun l => decide (10 ≤ l.length) && !endsInQuestion l)).map
    (fun l => String.mk l)

/-! ## Overconfidence detector (spec §4.2) -/

/-- Absolute-certainty markers (§4.2). -/
def CONFIDENCE_PATTERNS : List String :=
  ["definitely", "guaranteed", "absolutely", "100%", "without doubt",
   "certainly", "always", "never", "impossible"]

/-- Sensitive-domain vocabulary: medical, legal and financial terms
(`ARCHITECTURE.md` Overconfidence Detection). -/
def SENSITIVE_TERMS : List String :=
  ["health", "disease", "diagnosis", "law", "court", "rights",
   "invest", "stock", "money"]

/-- Modelled from the spec: `detect_overconfidence` of the missing
`signals.py` (§4.2): case-insensitive scan for absolute-certainty markers;
separately, sensitive-domain vocabulary co-occurring with a quantifiable
claim (four-digit year, percentage, currency amount). -/
def detect_overconfidence (response : String) : Bool × Option String :=
  let t := lowerL response.data
  if CONFIDENCE_PATTERNS.any (fun w => listContainsSub (lowerL w.data) t) then
    (true, some "High confidence language detected")
  else if SENSITIVE_TERMS.any (fun w => listContainsSub (lowerL w.data) t) &&
          (!(yearsIn t).isEmpty || hasDigitThen '%' t || hasCurrency t) then
    (true, some "Confident quantified claims in a sensitive domain")
  else
    (false, none)

/-! ## Internal-contradiction detector (spec §4.3) -/

/-- Status-open terms (§4.3). -/
def OPEN_TERMS : List String := ["open", "active", "currently"]

/-- Status-closed terms (§4.3). -/
def CLOSED_TERMS : List String := ["closed", "discontinued"]

/-- Modelled from the spec: `detect_internal_contradictions` of the missing
`signals.py` (§4.3): (a) two four-digit years with a gap exceeding 10 years;
(b) co-occurrence of a status-open and a status-closed term; (c) two numeric
values differing by an order of magnitude or more. -/
def detect_internal_contradictions (response : String) : Bool × Option String :=
  let t := lowerL response.data
  let years := yearsIn t
  let timeline := years.any (fun y1 => years.any (fun y2 => 10 < y2 - y1))
  let status :=
    OPEN_TERMS.any (fun w => listContainsSub (lowerL w.data) t) &&
    CLOSED_TERMS.any (fun w => listContainsSub (lowerL w.data) t)
  let nums := numbersIn t
  let magnitude := nums.any (fun a => nums.any (fun b => 0 < a && 10 * a ≤ b))
  if timeline then (true, some "Timeline conflict detected")
  else if status then (true, some "Status contradiction detected")
  else if magnitude then (true, some "Numerical inconsistency detected")
  else (false, none)

/-! ## Grounding verification (spec §4.4) -/

/-- Negation / contradiction markers scanned for near matched terms (§4.4). -/
def NEGATION_MARKERS : List String := ["not", "no", "never", "false", "wrong"]

/-- Word-window radius used when scanning for negation markers around a
matched term (the spec fixes the window but not its size). -/
def NEGATION_WINDOW : Nat := 5

/-- Is a negation marker within `NEGATION_WINDOW` words of an occurrence of
the matched term `w` in the retrieved-context words `rwords`? -/
def negationNear (rwords : List (List Char)) (w : List Char) : Bool :=
  (List.range rwords.length).any (fun i =>
    listContainsSub w (rwords.getD i []) &&
    (List.range rwords.length).any (fun j =>
      (i ≤ j + NEGATION_WINDOW && j ≤ i + NEGATION_WINDOW) &&
      NEGATION_MARKERS.any (fun m => rwords.getD j [] == m.data)))

/-- Modelled from the spec: per-claim verification of the missing
`signals.py` (§4.4): content words longer than 3 characters, coverage in the
concatenated retrieved text; coverage ≥ 50% ⇒ scan a fixed window around the
matched terms for negation markers (present ⇒ CONTRADICTED, absent ⇒
SUPPORTED); coverage < 50% (in particular no retrieved context) ⇒ UNVERIFIED. -/
def verify_claim (ragText : List Char) (claim : List Char) : RagStatus :=
  let terms := (wordsOf (lowerL claim)).filter (fun w => decide (3 < w.length))
  if terms.isEmpty then RagStatus.UNVERIFIED
  else
    let rt := lowerL ragText
    let matched := terms.filter (fun w => listContainsSub w rt)
    if terms.length ≤ 2 * matched.length then
      if matched.any (fun w => negationNear (wordsOf rt) w) then
        RagStatus.CONTRADICTED
      else RagStatus.SUPPORTED
    else RagStatus.UNVERIFIED

/-- Concatenated text of the retrieved-context documents; an absent
`rag_results` behaves like an empty one. -/
def ragTextOf (rag : Option (List RagDoc)) : List Char :=
  match rag with
  | none => []
  | some docs => (docs.map (fun d => d.content.data ++ [' '])).flatten

/-! ## Risk scorer (`scorer.py`, spec §4.5) -/

/-- Modelled from the spec: `calculate_risk_score` of the missing
`scorer.py`, following the pseudocode in `ARCHITECTURE.md` (Risk Score
Calculation): add 40 for internal contradiction, 35 for RAG contradiction,
15 for unverified claims, 20 for overconfidence, and cap at 100. -/
def calculate_risk_score (s : SignalSet) : Nat :=
  let score := 0
  let score := if s.internal_contradiction then score + 40 else score
  let score := if s.rag_contradiction then score + 35 else score
  let score := if s.rag_unverified then score + 15 else score
  let score := if s.overconfidence then score + 20 else score
  min score 100

/-- Modelled from the spec: `get_risk_level` of the missing `scorer.py`
(0-34 LOW, 35-69 MEDIUM, 70-100 HIGH). -/
def get_risk_level (score : Nat) : RiskLevel :=
  if score ≤ 34 then RiskLevel.LOW
  else if score ≤ 69 then RiskLevel.MEDIUM
  else RiskLevel.HIGH

/-- Modelled from the spec: `generate_explanation` of the missing
`scorer.py` (§4.6): issue strings in strict priority order, each from a
fixed template, prefixed by the risk-level prefix. -/
def generate_explanation (s : SignalSet) (score : Nat) : String :=
  let issues : List String :=
    (if s.internal_contradiction then ["Response contains internal contradictions"] else []) ++
    (if s.rag_contradiction then ["Contradicts retrieved information"] else []) ++
    (if s.rag_unverified then ["Response contains unverified factual claims"] else []) ++
    (if s.overconfidence then ["Overconfidence detected: High confidence language detected"] else [])
  let body :=
    if issues.isEmpty then "No significant risk signals detected"
    else String.intercalate "; " issues
  let prf :=
    if 70 ≤ score then "HIGH RISK: "
    else if 35 ≤ score then "MEDIUM RISK: "
    else "LOW RISK: "
  prf ++ body

/-! ## Analyzer (`analyzer.py`, spec §4.7) -/

/-- The zero-risk result produced by the dedicated empty-response branch. -/
def emptyResult : AnalysisResult :=
  ⟨0, RiskLevel.LOW, "Empty response", ⟨false, false, false, false⟩, []⟩

/-- Modelled from the spec: `analyze` of the missing `analyzer.py` (§4.7):
an empty response short-circuits to the zero-risk result without running any
detector; otherwise claims are extracted, verified against the retrieved
context, the signal set is assembled (RAG contradiction iff any claim is
CONTRADICTED; RAG unverified iff any claim is UNVERIFIED and none is
CONTRADICTED), and the score, level and explanation are derived. -/
def analyze (prompt llm_response : String) (rag_results : Option (List RagDoc)) :
    AnalysisResult :=
  if llm_response = "" then emptyResult
  else
    let ragText := ragTextOf rag_results
    let claims := (extract_claims llm_response).map
      (fun t => Claim.mk t (verify_claim ragText t.data))
    let rc := claims.any (fun c => decide (c.rag_status = RagStatus.CONTRADICTED))
    let ru := claims.any (fun c => decide (c.rag_status = RagStatus.UNVERIFIED)) && !rc
    let ic := (detect_internal_contradictions llm_response).1
    let oc := (detect_overconfidence llm_response).1
    let signals : SignalSet := ⟨ic, rc, ru, oc⟩
    let score := calculate_risk_score signals
    ⟨score, get_risk_level score, generate_explanation signals score, signals, claims⟩

/-! ## Enforcement policy (`enforcement.py`, spec §4.8) -/

/-- Enforcement action. -/
inductive EnforcementAction where
  | ALLOW
  | WARN
  | BLOCK
deriving DecidableEq, Repr

/-- The fixed literal replacing a blocked output (`README.md` Enforcement
Rules; rendered verbatim by `UserChatPage.js`). -/
def BLOCK_MESSAGE : String := "The output cannot be displayed."

/-- The fixed caution banner appended to WARN outputs
(`UserChatPage.js` warn banner). -/
def WARN_BANNER : String :=
  " Caution: This answer may be incomplete, unverified, or risky."

/-- Modelled from the spec: the score-to-action mapping of the missing
`enforcement.py` (`README.md` Enforcement Rules: 0-49 ALLOW, 50-79 WARN,
80-100 BLOCK). -/
def enforce_action (score : Nat) : EnforcementAction :=
  if score < 50 then EnforcementAction.ALLOW
  else if score < 80 then EnforcementAction.WARN
  else EnforcementAction.BLOCK

/-- The enforcement decision shown to an unprivileged caller. -/
structure EnforcementDecision where
  action : EnforcementAction
  visible_output : String
deriving DecidableEq, Repr

/-- Modelled from the spec: the full enforcement decision of the missing
`enforcement.py` (§4.8): ALLOW passes the response through, WARN appends the
fixed caution banner, BLOCK replaces the response with the fixed literal. -/
def enforce (score : Nat) (response : String) : EnforcementDecision :=
  if score < 50 then ⟨EnforcementAction.ALLOW, response⟩
  else if score < 80 then ⟨EnforcementAction.WARN, response ++ WARN_BANNER⟩
  else ⟨EnforcementAction.BLOCK, BLOCK_MESSAGE⟩

/-! ## Upstream proxy (`llm_proxy.py`, spec §4.9) -/

/-- Upstream error taxonomy (§7). -/
inductive UpstreamError where
  | network
  | timeout
  | server
  | malformed
  | auth
  | rateLimit
deriving DecidableEq, Repr

/-- Which upstream errors are retried: network errors, timeouts, 5xx and
malformed bodies; authentication and rate-limit errors are not (§4.9, §7). -/
def retryable : UpstreamError → Bool
  | UpstreamError.auth => false
  | UpstreamError.rateLimit => false
  | _ => true

/-- Outcome of one attempted network call to the provider. -/
inductive Outcome where
  | success (resp : String)
  | failure (e : UpstreamError)
deriving DecidableEq, Repr

/-- What the attempt loop observed: the successful response if any, the
number of attempts actually performed, and the backoff waits (in seconds)
taken before each retry. -/
structure RunStats where
  response : Option String
  attempts : Nat
  waits : List Nat
deriving DecidableEq, Repr

/-- Modelled from the spec: the retry loop of the missing `llm_proxy.py`
(§4.9).  `outcomes` is the (adversarial) sequence of attempt outcomes still
allowed, `i` counts attempts already made (so the wait before the next retry
is `2 ^ i` seconds: 1s, 2s, 4s, ...).  A success returns immediately; a
retryable failure backs off and retries while attempts remain; a
non-retryable failure (auth, rate limit) stops at once. -/
def attempt_loop : List Outcome → Nat → RunStats
  | [], _ => ⟨none, 0, []⟩
  | Outcome.success r :: _, _ => ⟨some r, 1, []⟩
  | Outcome.failure e :: rest, i =>
    if retryable e && !rest.isEmpty then
      let s := attempt_loop rest (i + 1)
      ⟨s.response, s.attempts + 1, 2 ^ i :: s.waits⟩
    else ⟨none, 1, []⟩

/-- Fatal error surfaced when retries are exhausted and fallback is off. -/
inductive ProxyError where
  | upstreamFailure
deriving DecidableEq, Repr

/-- Modelled from the spec: the deterministic keyword-based mock generator
of the missing `llm_proxy.py` (§4.9): a pure function of the prompt. -/
def mock_response (prompt : String) : String :=
  if containsWord prompt "invest" || containsWord prompt "stock" then
    "Mock response: financial guidance is provided for information only."
  else if containsWord prompt "health" || containsWord prompt "medic" then
    "Mock response: consult a qualified professional for health questions."
  else
    "This is a mock response generated for: " ++ prompt

/-- Modelled from the spec: the call path of the missing `llm_proxy.py`
(§4.9): up to `1 + max_retries` attempts (`att i` is the outcome of the
`i`-th attempt); on exhaustion, fall back to the deterministic mock response
when `fallback_to_mock` is set, otherwise raise the fatal upstream error. -/
def llm_proxy (fallback_to_mock : Bool) (max_retries : Nat) (prompt : String)
    (att : Nat → Outcome) : Except ProxyError String :=
  let outcomes := (List.range (max_retries + 1)).map att
  let stats := attempt_loop outcomes 0
  match stats.response with
  | some r => Except.ok r
  | none =>
    if fallback_to_mock then Except.ok (mock_response prompt)
    else Except.error ProxyError.upstreamFailure

/-! ## Client-side authentication (`AuthContext.js`, embedded from source) -/

/-- The user record built by a successful login (the random `id` field of
the JavaScript source is nondeterministic and omitted). -/
structure UserData where
  email : String
  role : String
  name : String
deriving DecidableEq, Repr

/-- Result of `AuthProvider.login`. -/
inductive LoginResult where
  | success (user : UserData)
  | failure (error : String)
deriving DecidableEq, Repr

/-- Did the login succeed? -/
def loginSucceeded : LoginResult → Bool
  | LoginResult.success _ => true
  | LoginResult.failure _ => false

/-- `AuthProvider.login` from `src/context/AuthContext.js`: for role
`admin` the e-mail and password are compared against the hardcoded
credentials; for role `user` any non-empty (truthy) e-mail and password
succeed; anything else fails. -/
def login (email password role : String) : LoginResult :=
  if role = "admin" then
    if email = "admin@watchdog.ai" ∧ password = "admin123" then
      LoginResult.success ⟨email, "admin", "Admin"⟩
    else LoginResult.failure "Invalid admin credentials"
  else if role = "user" ∧ email ≠ "" ∧ password ≠ "" then
    LoginResult.success ⟨email, "user", ((email.splitOn "@").headD "")⟩
  else LoginResult.failure "Invalid credentials"

/-! ## Theorems -/

/-- With no retrieved context at all, every claim verifies to UNVERIFIED:
the key terms are nonempty words, none of which occurs in the empty text,
so coverage is below 50%. -/
theorem verify_claim_nil (cl : List Char) :
    verify_claim [] cl = RagStatus.UNVERIFIED := by
  simp only [verify_claim]
  by_cases hterms :
      ((wordsOf (lowerL cl)).filter (fun w => decide (3 < w.length))).isEmpty
  · rw [if_pos hterms]
  · rw [if_neg hterms]
    have hmatched :
        ((wordsOf (lowerL cl)).filter (fun w => decide (3 < w.length))).filter
          (fun w => listContainsSub w (lowerL [])) = [] := by
      rw [List.filter_eq_nil_iff]
      intro w hw
      have h3 : 3 < w.length := by simpa using List.of_mem_filter hw
      match w with
      | [] => simp at h3
      | a :: as => simp [lowerL, listContainsSub, listStartsWith]
    rw [hmatched]
    have hne :
        ((wordsOf (lowerL cl)).filter (fun w => decide (3 < w.length))) ≠ [] := by
      intro hnil
      exact hterms (by simp [hnil])
    have hcond : ¬ ((wordsOf (lowerL cl)).filter
        (fun w => decide (3 < w.length))).length ≤ 2 * List.length ([] : List (List Char)) := by
      simp only [List.length_nil, Nat.mul_zero, Nat.le_zero]
      intro hlen
      exact hne (List.length_eq_zero.mp hlen)
    rw [if_neg hcond]

/-- If no attempt in the remaining sequence succeeds, the attempt loop ends
with no response. -/
theorem attempt_loop_no_success (l : List Outcome) :
    ∀ i, (∀ o ∈ l, ∀ r, o ≠ Outcome.success r) →
      (attempt_loop l i).response = none := by
  induction l with
  | nil => intro i _; rfl
  | cons a rest ih =>
    intro i h
    cases a with
    | success r => exact (h (Outcome.success r) (List.mem_cons_self _ _) r rfl).elim
    | failure e =>
      simp only [attempt_loop]
      by_cases hc : retryable e && !rest.isEmpty
      · rw [if_pos hc]
        simpa using ih (i + 1) (fun o ho r => h o (List.mem_cons_of_mem _ ho) r)
      · rw [if_neg hc]

/-- If every outcome in the nonempty sequence is a retryable failure, the
loop performs every attempt and backs off exponentially (2^i seconds before
the retry after attempt `i`). -/
theorem attempt_loop_all_retry (l : List Outcome) :
    ∀ i, l ≠ [] → (∀ o ∈ l, ∃ e, o = Outcome.failure e ∧ retryable e = true) →
      attempt_loop l i =
        ⟨none, l.length, (List.range (l.length - 1)).map (fun k => 2 ^ (i + k))⟩ := by
  induction l with
  | nil => intro i h _; exact absurd rfl h
  | cons a rest ih =>
    intro i _ h
    obtain ⟨e, rfl, hre⟩ := h a (List.mem_cons_self _ _)
    cases rest with
    | nil => simp [attempt_loop]
    | cons b t =>
      have hrest := ih (i + 1) (by simp)
        (fun o ho => h o (List.mem_cons_of_mem _ ho))
      simp only [attempt_loop]
      rw [if_pos (by simp [hre]), hrest]
      have hfun : ((fun k => 2 ^ (i + k)) ∘ Nat.succ) = (fun k => 2 ^ (i + 1 + k)) := by
        funext k
        simp only [Function.comp]
        congr 1
        omega
      simp only [List.length_cons, Nat.add_sub_cancel, List.range_succ_eq_map,
        List.map_cons, List.map_map, hfun, Nat.add_zero]

/-- C6: When every attempt fails: with `fallback_to_mock` on, the proxy
returns the deterministic mock response (it never raises); with it off, the
proxy raises the fatal upstream-failure error. -/
theorem proxy_exhausted_fallback (att : Nat → Outcome) (m : Nat) (p : String)
    (h : ∀ i r, att i ≠ Outcome.success r) :
    llm_proxy true m p att = Except.ok (mock_response p) ∧
    llm_proxy false m p att = Except.error ProxyError.upstreamFailure := by
  have hall : ∀ o ∈ (List.range (m + 1)).map att, ∀ r, o ≠ Outcome.success r := by
    intro o ho r
    obtain ⟨i, _, rfl⟩ := List.mem_map.mp ho
    exact h i r
  have hres := attempt_loop_no_success ((List.range (m + 1)).map att) 0 hall
  constructor <;> · simp only [llm_proxy]; rw [hres]; rfl

/-- Witness for C6: a proxy whose every attempt hits a network error. -/
theorem proxy_exhausted_fallback_witness :
    llm_proxy true 2 "What is AI?" (fun _ => Outcome.failure UpstreamError.network) =
      Except.ok (mock_response "What is AI?") ∧
    llm_proxy false 2 "What is AI?" (fun _ => Outcome.failure UpstreamError.network) =
      Except.error ProxyError.upstreamFailure :=
  proxy_exhausted_fallback (fun _ => Outcome.failure UpstreamError.network) 2
    "What is AI?" (fun _ _ h => Outcome.noConfusion h)

/-- C7: On an authentication or rate-limit error, the proxy performs zero
retries (one attempt, no backoff waits) and proceeds directly to the
fallback decision; when every attempt fails with a retryable error (network,
timeout, 5xx, malformed body) it performs all `max_retries` retries with
exponential backoff waits 1, 2, 4, ... seconds. -/
theorem proxy_retry_policy (att : Nat → Outcome) (m : Nat) (p : String) :
    (∀ e, retryable e = false → att 0 = Outcome.failure e →
      (attempt_loop ((List.range (m + 1)).map att) 0).attempts = 1 ∧
      (attempt_loop ((List.range (m + 1)).map att) 0).waits = [] ∧
      llm_proxy true m p att = Except.ok (mock_response p) ∧
      llm_proxy false m p att = Except.error ProxyError.upstreamFailure) ∧
    ((∀ i, ∃ e, att i = Outcome.failure e ∧ retryable e = true) →
      (attempt_loop ((List.range (m + 1)).map att) 0).attempts = m + 1 ∧
      (attempt_loop ((List.range (m + 1)).map att) 0).waits =
        (List.range m).map (fun k => 2 ^ k)) := by
  constructor
  · intro e hre h0
    have hstats : attempt_loop ((List.range (m + 1)).map att) 0 = ⟨none, 1, []⟩ := by
      rw [List.range_succ_eq_map, List.map_cons, h0]
      simp [attempt_loop, hre]
    refine ⟨by rw [hstats], by rw [hstats], ?_, ?_⟩ <;>
      · simp only [llm_proxy]; rw [hstats]; rfl
  · intro hall
    have hne : (List.range (m + 1)).map att ≠ [] := by simp
    have hl : ∀ o ∈ (List.range (m + 1)).map att,
        ∃ e, o = Outcome.failure e ∧ retryable e = true := by
      intro o ho
      obtain ⟨i, _, rfl⟩ := List.mem_map.mp ho
      exact hall i
    rw [attempt_loop_all_retry _ 0 hne hl]
    simp

/-- Witness for C7: an immediate auth failure costs one attempt and no
waits; all-network failures use every retry with waits 1s then 2s. -/
theorem proxy_retry_policy_witness :
    ((attempt_loop ((List.range (2 + 1)).map
        (fun _ => Outcome.failure UpstreamError.auth)) 0).attempts = 1 ∧
     (attempt_loop ((List.range (2 + 1)).map
        (fun _ => Outcome.failure UpstreamError.auth)) 0).waits = [] ∧
     llm_proxy true 2 "q" (fun _ => Outcome.failure UpstreamError.auth) =
       Except.ok (mock_response "q") ∧
     llm_proxy false 2 "q" (fun _ => Outcome.failure UpstreamError.auth) =
       Except.error ProxyError.upstreamFailure) ∧
    ((attempt_loop ((List.range (2 + 1)).map
        (fun _ => Outcome.failure UpstreamError.network)) 0).attempts = 2 + 1 ∧
     (attempt_loop ((List.range (2 + 1)).map
        (fun _ => Outcome.failure UpstreamError.network)) 0).waits =
       (List.range 2).map (fun k => 2 ^ k)) :=
  ⟨(proxy_retry_policy (fun _ => Outcome.failure UpstreamError.auth) 2 "q").1
      UpstreamError.auth rfl rfl,
   (proxy_retry_policy (fun _ => Outcome.failure UpstreamError.network) 2 "q").2
      (fun _ => ⟨UpstreamError.network, rfl, rfl⟩)⟩

/-- C4: The signal flag `rag_contradiction` is true iff some extracted claim
is CONTRADICTED; `rag_unverified` is true iff some claim is UNVERIFIED and
no claim is CONTRADICTED (contradiction takes precedence); and when the
retrieved context is absent or empty, every claim is UNVERIFIED. -/
theorem rag_flags_match_claim_statuses (prompt response : String)
    (rag : Option (List RagDoc)) :
    ((analyze prompt response rag).signals.rag_contradiction = true ↔
       ∃ c ∈ (analyze prompt response rag).claims,
         c.rag_status = RagStatus.CONTRADICTED) ∧
    ((analyze prompt response rag).signals.rag_unverified = true ↔
       ((∃ c ∈ (analyze prompt response rag).claims,
           c.rag_status = RagStatus.UNVERIFIED) ∧
        ¬ ∃ c ∈ (analyze prompt response rag).claims,
           c.rag_status = RagStatus.CONTRADICTED)) ∧
    ((rag = none ∨ rag = some []) →
       ∀ c ∈ (analyze prompt response rag).claims,
         c.rag_status = RagStatus.UNVERIFIED) := by
  by_cases hresp : response = ""
  · subst hresp
    refine ⟨?_, ?_, ?_⟩ <;> simp [analyze, emptyResult]
  · refine ⟨?_, ?_, ?_⟩
    · simp [analyze, hresp, List.any_eq_true, decide_eq_true_eq]
    · simp [analyze, hresp, List.any_eq_true, Bool.and_eq_true, Bool.not_eq_true',
        decide_eq_true_eq, decide_eq_false_iff_not]
    · intro hrag c hc
      have hragtext : ragTextOf rag = [] := by
        rcases hrag with rfl | rfl <;> rfl
      simp only [analyze, hresp, if_neg, ite_false, reduceIte] at hc
      rw [hragtext] at hc
      obtain ⟨t, _, rfl⟩ := List.mem_map.mp hc
      simpa using verify_claim_nil t.data

/-- Witness for C4: the flag/claim-status relationship evaluated on the
documented no-context scenario. -/
theorem rag_flags_match_claim_statuses_witness :
    ((analyze "p" "The capital of France is Paris." none).signals.rag_contradiction = true ↔
       ∃ c ∈ (analyze "p" "The capital of France is Paris." none).claims,
         c.rag_status = RagStatus.CONTRADICTED) ∧
    ((analyze "p" "The capital of France is Paris." none).signals.rag_unverified = true ↔
       ((∃ c ∈ (analyze "p" "The capital of France is Paris." none).claims,
           c.rag_status = RagStatus.UNVERIFIED) ∧
        ¬ ∃ c ∈ (analyze "p" "The capital of France is Paris." none).claims,
           c.rag_status = RagStatus.CONTRADICTED)) ∧
    (((none : Option (List RagDoc)) = none ∨ (none : Option (List RagDoc)) = some []) →
       ∀ c ∈ (analyze "p" "The capital of France is Paris." none).claims,
         c.rag_status = RagStatus.UNVERIFIED) :=
  rag_flags_match_claim_statuses "p" "The capital of France is Paris." none

/-- C1: The enforcement mapping from risk score to action is total over the
integers 0..100 and boundary-exact: every score below 50 maps to ALLOW,
every score in 50..79 maps to WARN, every score from 80 on maps to BLOCK;
in particular 49 ↦ ALLOW, 50 ↦ WARN, 79 ↦ WARN, 80 ↦ BLOCK. -/
theorem enforce_action_boundary_exact :
    (∀ s : Nat, s < 50 → enforce_action s = EnforcementAction.ALLOW) ∧
    (∀ s : Nat, 50 ≤ s → s < 80 → enforce_action s = EnforcementAction.WARN) ∧
    (∀ s : Nat, 80 ≤ s → enforce_action s = EnforcementAction.BLOCK) ∧
    enforce_action 49 = EnforcementAction.ALLOW ∧
    enforce_action 50 = EnforcementAction.WARN ∧
    enforce_action 79 = EnforcementAction.WARN ∧
    enforce_action 80 = EnforcementAction.BLOCK := by
  refine ⟨?_, ?_, ?_, by decide, by decide, by decide, by decide⟩
  · intro s h
    simp [enforce_action, h]
  · intro s h1 h2
    have h3 : ¬ s < 50 := by omega
    simp [enforce_action, h2, h3]
  · intro s h
    have h1 : ¬ s < 50 := by omega
    have h2 : ¬ s < 80 := by omega
    simp [enforce_action, h1, h2]

/-- Witness for C1: the boundary scores evaluated through the theorem. -/
theorem enforce_action_boundary_exact_witness :
    ((49 : Nat) < 50 ∧ enforce_action 49 = EnforcementAction.ALLOW) ∧
    ((50 : Nat) ≤ 79 ∧ (79 : Nat) < 80 ∧ enforce_action 79 = EnforcementAction.WARN) ∧
    ((80 : Nat) ≤ 80 ∧ enforce_action 80 = EnforcementAction.BLOCK) :=
  ⟨⟨by decide, enforce_action_boundary_exact.1 49 (by decide)⟩,
   ⟨by decide, by decide, enforce_action_boundary_exact.2.1 79 (by decide) (by decide)⟩,
   ⟨by decide, enforce_action_boundary_exact.2.2.1 80 (by decide)⟩⟩

/-- C2: For every signal set, the risk score equals min(100, sum of the
weights of the active flags) with weights internal_contradiction=40,
rag_contradiction=35, rag_unverified=15, overconfidence=20; consequently
the risk score is at most 100 (and, being a natural number, at least 0). -/
theorem risk_score_is_capped_weight_sum (s : SignalSet) :
    calculate_risk_score s =
      min 100 ((if s.internal_contradiction then 40 else 0) +
               (if s.rag_contradiction then 35 else 0) +
               (if s.rag_unverified then 15 else 0) +
               (if s.overconfidence then 20 else 0)) ∧
    calculate_risk_score s ≤ 100 := by
  rcases s with ⟨a, b, c, d⟩
  cases a <;> cases b <;> cases c <;> cases d <;> exact ⟨by decide, by decide⟩

/-- C3: For every input whose `llm_response` is the empty string, `analyze`
returns risk score 0, level LOW, explanation "Empty response", no claims and
all four signal flags false, independently of the prompt and the retrieved
context (the dedicated empty-response branch bypasses the detectors). -/
theorem analyze_empty_response (prompt : String) (rag : Option (List RagDoc)) :
    analyze prompt "" rag =
      ⟨0, RiskLevel.LOW, "Empty response", ⟨false, false, false, false⟩, []⟩ := by
  rfl

/-- C5: For any two raw responses whose risk scores are both at least 80,
the unprivileged visible output is the same fixed literal string
"The output cannot be displayed." verbatim: BLOCK output does not depend on
the original response, which is withheld entirely. -/
theorem block_output_is_fixed (r1 r2 : String) (s1 s2 : Nat)
    (h1 : 80 ≤ s1) (h2 : 80 ≤ s2) :
    (enforce s1 r1).visible_output = (enforce s2 r2).visible_output ∧
    (enforce s1 r1).visible_output = "The output cannot be displayed." ∧
    (enforce s1 r1).action = EnforcementAction.BLOCK := by
  have n1 : ¬ s1 < 50 := by omega
  have n2 : ¬ s1 < 80 := by omega
  have n3 : ¬ s2 < 50 := by omega
  have n4 : ¬ s2 < 80 := by omega
  simp [enforce, BLOCK_MESSAGE, n1, n2, n3, n4]

/-- Witness for C5: two different blocked responses render identically. -/
theorem block_output_is_fixed_witness :
    (80 : Nat) ≤ 85 ∧ (80 : Nat) ≤ 100 ∧
    ((enforce 85 "a secret answer").visible_output =
       (enforce 100 "another answer").visible_output ∧
     (enforce 85 "a secret answer").visible_output =
       "The output cannot be displayed." ∧
     (enforce 85 "a secret answer").action = EnforcementAction.BLOCK) :=
  ⟨by decide, by decide,
   block_output_is_fixed "a secret answer" "another answer" 85 100
     (by decide) (by decide)⟩

/-- C8: The risk score is monotone in the signal flags: switching any single
flag on, holding the others fixed, never decreases the score. -/
theorem risk_score_monotone (a b c d : Bool) :
    calculate_risk_score ⟨a, b, c, d⟩ ≤ calculate_risk_score ⟨true, b, c, d⟩ ∧
    calculate_risk_score ⟨a, b, c, d⟩ ≤ calculate_risk_score ⟨a, true, c, d⟩ ∧
    calculate_risk_score ⟨a, b, c, d⟩ ≤ calculate_risk_score ⟨a, b, true, d⟩ ∧
    calculate_risk_score ⟨a, b, c, d⟩ ≤ calculate_risk_score ⟨a, b, c, true⟩ := by
  cases a <;> cases b <;> cases c <;> cases d <;> decide

/-- C9: The documented overconfidence scenario: with no retrieved context,
the response "You should definitely take 800mg immediately. This will
absolutely cure you." yields overconfidence and rag_unverified, risk score
exactly 35 and level MEDIUM. -/
theorem overconfidence_scenario :
    (analyze "Should I take this medication?"
      "You should definitely take 800mg immediately. This will absolutely cure you."
      none).signals.overconfidence = true ∧
    (analyze "Should I take this medication?"
      "You should definitely take 800mg immediately. This will absolutely cure you."
      none).signals.rag_unverified = true ∧
    (analyze "Should I take this medication?"
      "You should definitely take 800mg immediately. This will absolutely cure you."
      none).risk_score = 35 ∧
    (analyze "Should I take this medication?"
      "You should definitely take 800mg immediately. This will absolutely cure you."
      none).risk_level = RiskLevel.MEDIUM := by
  decide

/-- C10: Client-side login: with role `admin` it succeeds exactly for the
hardcoded credential pair, while with role `user` any non-empty e-mail and
password pair succeeds without any credential check. -/
theorem login_role_credentials (e p : String) :
    (loginSucceeded (login e p "admin") = true ↔
       (e = "admin@watchdog.ai" ∧ p = "admin123")) ∧
    (loginSucceeded (login e p "user") = true ↔ (e ≠ "" ∧ p ≠ "")) := by
  constructor
  · unfold login
    rw [if_pos rfl]
    by_cases h : e = "admin@watchdog.ai" ∧ p = "admin123"
    · rw [if_pos h]
      simp [loginSucceeded, h.1, h.2]
    · rw [if_neg h]
      simp only [loginSucceeded, Bool.false_eq_true, false_iff]
      exact h
  · unfold login
    rw [if_neg (by decide : ¬ ("user" : String) = "admin")]
    by_cases h : e ≠ "" ∧ p ≠ ""
    · rw [if_pos ⟨rfl, h⟩]
      simp [loginSucceeded, h.1, h.2]
    · rw [if_neg (fun hc => h hc.2)]
      simp only [loginSucceeded, Bool.false_eq_true, false_iff]
      exact h

/-- Witness for C10: the hardcoded admin pair and an arbitrary non-empty
user pair both log in through the theorem. -/
theorem login_role_credentials_witness :
    loginSucceeded (login "admin@watchdog.ai" "admin123" "admin") = true ∧
    loginSucceeded (login "jane@example.com" "hunter2" "user") = true :=
  ⟨(login_role_credentials "admin@watchdog.ai" "admin123").1.mpr ⟨rfl, rfl⟩,
   (login_role_credentials "jane@example.com" "hunter2").2.mpr (by decide)⟩

end Watchdog
